import Mathlib

/-!
Verification of the hybrid state-access and execution pipeline of
`src/src/main.rs`: a read-through, overridable state layer (a cache seeded
from a remote chain source) feeding a single simulated contract call whose
ABI-decoded return value is the pool's packed reserves.

Machine integers are modelled as `Nat` with explicit reduction modulo
`2 ^ 256` where the 256-bit word width matters.  The cache is modelled as
association lists keyed by address and by (address, slot).  Components whose
source lives in external crates (the revm `CacheDB`, the EVM engine, the
ethers ABI codec) are modelled from the spec, as marked on each definition.
-/

set_option autoImplicit false

namespace RevmEx

/-- A 20-byte account identifier, modelled as a natural number. -/
abbrev Address := Nat

/-- A 256-bit storage key, modelled as a natural number. -/
abbrev StorageSlot := Nat

/-- Account metadata as fetched from the chain source
(`AccountInfo { balance, nonce, code_hash, code }` in the source). -/
structure AccountInfo where
  balance : Nat
  nonce : Nat
  code_hash : Nat
  code : Option (List Nat)
deriving DecidableEq, Repr

/-- Modelled from the spec: the `RemoteStateSource` capability
(`EthersDB` in the source, an external crate).  `none` stands for the
`RemoteUnavailable` network failure. -/
structure RemoteStateSource where
  fetch_account : Address → Option AccountInfo
  fetch_storage : Address → StorageSlot → Option Nat

/-- Modelled from the spec: the override store backing `CacheDB` (external
crate): a mapping from addresses to account info and from (address, slot)
pairs to 256-bit storage words, as association lists where the most recent
entry for a key shadows older ones. -/
structure CacheDB where
  accounts : List (Address × AccountInfo)
  storage : List ((Address × StorageSlot) × Nat)
deriving DecidableEq, Repr

/-- The empty cache (`CacheDB::new(EmptyDB::default())` in the source). -/
def CacheDB.empty : CacheDB := { accounts := [], storage := [] }

/-- Modelled from the spec: `set_account` / `insert_account_info` —
unconditionally replaces any existing entry for the address. -/
def insertAccountInfo (db : CacheDB) (a : Address) (info : AccountInfo) : CacheDB :=
  { db with accounts := (a, info) :: db.accounts.filter (fun p => p.1 != a) }

/-- Modelled from the spec: `set_storage` / `insert_account_storage` —
unconditionally replaces any existing entry for the (address, slot) key;
the stored word is reduced to the 256-bit width. -/
def insertAccountStorage (db : CacheDB) (a : Address) (s : StorageSlot) (v : Nat) : CacheDB :=
  { db with storage := ((a, s), v % 2 ^ 256) :: db.storage.filter (fun p => p.1 != (a, s)) }

/-- Seeding-stage failure: the remote chain source could not be reached. -/
inductive SeedError where
  | RemoteUnavailable
deriving DecidableEq, Repr

/-- Modelled from the spec: `get_account(addr)` of the OverridableStateView —
returns the cached entry if present; otherwise invokes
`RemoteStateSource.fetch_account`, stores the result, and returns it (the
returned Bool records whether a remote fetch was performed).  Fails with
`RemoteUnavailable` when the network call fails. -/
def getAccount (db : CacheDB) (remote : RemoteStateSource) (a : Address) :
    Except SeedError (AccountInfo × CacheDB × Bool) :=
  match db.accounts.lookup a with
  | some info => Except.ok (info, db, false)
  | none =>
    match remote.fetch_account a with
    | some info => Except.ok (info, insertAccountInfo db a info, true)
    | none => Except.error SeedError.RemoteUnavailable

/-- Modelled from the spec: `get_storage(addr, slot)` — the same
cache-then-fetch contract, keyed by (addr, slot). -/
def getStorage (db : CacheDB) (remote : RemoteStateSource) (a : Address) (s : StorageSlot) :
    Except SeedError (Nat × CacheDB × Bool) :=
  match db.storage.lookup (a, s) with
  | some w => Except.ok (w, db, false)
  | none =>
    match remote.fetch_storage a s with
    | some w => Except.ok (w % 2 ^ 256, insertAccountStorage db a s w, true)
    | none => Except.error SeedError.RemoteUnavailable

/-- Storage read as performed by the execution engine against the seeded
cache: a missing entry resolves to the `EmptyDB` default word 0
(the cache in the source is `CacheDB<EmptyDB>`). -/
def sload (db : CacheDB) (a : Address) (s : StorageSlot) : Nat :=
  ((db.storage.lookup (a, s)).getD 0) % 2 ^ 256

/-- The transaction target (`TransactTo` in the source): a call to an
existing account, or contract creation. -/
inductive TransactTo where
  | Call (target : Address)
  | Create
deriving DecidableEq, Repr

/-- The transaction environment built in the source
(`TxEnv { caller, transact_to, data, value, ..Default::default() }`);
calldata is a byte list, value a 256-bit amount. -/
structure TxEnv where
  caller : Address
  transact_to : TransactTo
  data : List Nat
  value : Nat
deriving DecidableEq, Repr

/-- The output shape of a successful execution (`Output` in revm):
a call returns raw bytes, a creation returns bytes and maybe an address. -/
inductive Output where
  | Call (bytes : List Nat)
  | Create (bytes : List Nat) (addr : Option Address)
deriving DecidableEq, Repr

/-- The structured execution outcome (`ExecutionResult` in revm):
success with an output, an explicit revert with data, or a halt. -/
inductive ExecutionResult where
  | Success (output : Output)
  | Revert (output : List Nat)
  | Halt (reason : Nat)
deriving DecidableEq, Repr

/-- Modelled from the spec: the observable behaviour of one contract call —
return data, revert data, or a halt reason. -/
inductive CallOutcome where
  | ret (words : List Nat)
  | rev (data : List Nat)
  | halt (reason : Nat)
deriving DecidableEq, Repr

/-- Modelled from the spec: contract bytecode is external to the repository
(fetched from the chain at run time), so a contract is modelled by its call
semantics: a pure function of the storage-read operation for the target
account and of the calldata, producing an outcome together with the list of
simulated storage writes performed during interpretation. -/
abbrev ContractCode := (StorageSlot → Nat) → List Nat → CallOutcome × List (StorageSlot × Nat)

/-- Modelled from the spec: the CallExecutor (`evm.transact()` in the
source).  It interprets the code at the call target against the seeded
cache, reading storage lazily via `sload`; a call to an account with no
code succeeds with empty return data; simulated writes are confined to the
run and discarded, so the cache is returned unchanged (revm's `transact`
does not commit state to the database). -/
def transact (db : CacheDB) (code : Address → Option ContractCode) (tx : TxEnv) :
    ExecutionResult × CacheDB :=
  match tx.transact_to with
  | TransactTo.Call target =>
    match code target with
    | none => (ExecutionResult.Success (Output.Call []), db)
    | some c =>
      match (c (fun s => sload db target s) tx.data).1 with
      | CallOutcome.ret ws => (ExecutionResult.Success (Output.Call ws), db)
      | CallOutcome.rev d => (ExecutionResult.Revert d, db)
      | CallOutcome.halt r => (ExecutionResult.Halt r, db)
  | TransactTo.Create => (ExecutionResult.Success (Output.Create [] none), db)

/-- The match on the execution result in the source (lines 65-71): a
successful call yields its raw return bytes, every other shape yields
`none`. -/
def extractCallOutput (result : ExecutionResult) : Option (List Nat) :=
  match result with
  | ExecutionResult.Success output =>
    match output with
    | Output.Call value => some value
    | _ => none
  | _ => none

/-- The Uniswap V2 WETH-USDT pool address from the source. -/
def poolAddress : Address := 0x0d4a11d5EEaaC28EC3F61d100daF4d40471f1852

/-- Storage slot 8 of the pair contract, holding the packed reserves. -/
def slot8 : StorageSlot := 8

/-- The zero address used as caller in the source. -/
def zeroAddress : Address := 0

/-- Modelled from the spec: the ABI-encoded calldata for `getReserves()`
(`pool_contract.encode("getReserves", ())` in the source) — the 4-byte
function selector. -/
def getReservesCalldata : List Nat := [0x09, 0x02, 0xf1, 0xac]

/-- Modelled from the spec: the return data of `getReserves()` as ABI
words — fixed-width integers right-aligned in 32-byte words, in declared
order, here modelled as the list of the three word values. -/
def encodeReservesOutput (r0 r1 ts : Nat) : List Nat := [r0, r1, ts]

/-- Modelled from the spec: the pair contract whose `getReserves()` reads
slot 8 and returns `(reserve0, reserve1, blockTimestampLast)` by unpacking
bit ranges [0:112), [112:224), [224:256) of the stored word; any other
calldata reverts; the call performs no storage write. -/
def getReservesCode : ContractCode := fun sl calldata =>
  if calldata = getReservesCalldata then
    let w := sl slot8
    (CallOutcome.ret (encodeReservesOutput (w % 2 ^ 112) (w / 2 ^ 112 % 2 ^ 112) (w / 2 ^ 224 % 2 ^ 32)), [])
  else
    (CallOutcome.rev [], [])

/-- Modelled from the spec: `decode_output` of the AbiCodec for the
signature `(uint112 reserve0, uint112 reserve1, uint32 blockTimestampLast)`
— three words, each required to fit its declared width, otherwise a
`DecodeError`. -/
def decodeGetReserves (words : List Nat) : Option (Nat × Nat × Nat) :=
  match words with
  | [r0, r1, ts] =>
    if r0 < 2 ^ 112 ∧ r1 < 2 ^ 112 ∧ ts < 2 ^ 32 then some (r0, r1, ts) else none
  | _ => none

/-- The cache as seeded in the source: the pool's account info and the
fetched storage word at slot 8, inserted into an empty cache. -/
def seedCache (info : AccountInfo) (w : Nat) : CacheDB :=
  insertAccountStorage (insertAccountInfo CacheDB.empty poolAddress info) poolAddress slot8 w

/-- The transaction environment of the source: zero caller, call to the
pool, `getReserves()` calldata, zero value. -/
def mainTx : TxEnv :=
  { caller := zeroAddress
    transact_to := TransactTo.Call poolAddress
    data := getReservesCalldata
    value := 0 }

/-- The failure modes of the pipeline: a seeding-stage network failure, the
`value.unwrap()` panic on a non-call output, and an ABI decode mismatch. -/
inductive PipelineError where
  | RemoteUnavailable
  | UnwrapNone
  | DecodeError
deriving DecidableEq, Repr

/-- The whole pipeline of `main`: fetch the pool's account info and the
slot-8 word from the remote source (aborting on failure), seed the cache,
execute the `getReserves()` call, extract the call output, decode it.
The contract semantics of each address are a parameter, since bytecode is
fetched at run time. -/
def runPipeline (remote : RemoteStateSource) (code : Address → Option ContractCode) :
    Except PipelineError (Nat × Nat × Nat) :=
  match remote.fetch_account poolAddress with
  | none => Except.error PipelineError.RemoteUnavailable
  | some info =>
    match remote.fetch_storage poolAddress slot8 with
    | none => Except.error PipelineError.RemoteUnavailable
    | some w =>
      match extractCallOutput (transact (seedCache info w) code mainTx).1 with
      | none => Except.error PipelineError.UnwrapNone
      | some bytes =>
        match decodeGetReserves bytes with
        | none => Except.error PipelineError.DecodeError
        | some t => Except.ok t

/-- The pipeline instrumented with the number of remote consultations
performed: one per fetch issued during seeding, and none elsewhere. -/
def runPipelineCount (remote : RemoteStateSource) (code : Address → Option ContractCode) :
    Except PipelineError (Nat × Nat × Nat) × Nat :=
  match remote.fetch_account poolAddress with
  | none => (Except.error PipelineError.RemoteUnavailable, 1)
  | some info =>
    match remote.fetch_storage poolAddress slot8 with
    | none => (Except.error PipelineError.RemoteUnavailable, 2)
    | some w =>
      match extractCallOutput (transact (seedCache info w) code mainTx).1 with
      | none => (Except.error PipelineError.UnwrapNone, 2)
      | some bytes =>
        match decodeGetReserves bytes with
        | none => (Except.error PipelineError.DecodeError, 2)
        | some t => (Except.ok t, 2)

/-- The number of remote fetches issued by the seeding stage alone: one
when the account fetch fails, two otherwise (the storage fetch is issued
either way once the account fetch succeeded). -/
def seedFetches (remote : RemoteStateSource) : Nat :=
  match remote.fetch_account poolAddress with
  | none => 1
  | some _ => 2

/-- The execution outcome reached by the pipeline, when seeding succeeds. -/
def pipelineOutcome (remote : RemoteStateSource) (code : Address → Option ContractCode) :
    Option ExecutionResult :=
  match remote.fetch_account poolAddress with
  | none => none
  | some info =>
    match remote.fetch_storage poolAddress slot8 with
    | none => none
    | some w => some (transact (seedCache info w) code mainTx).1

/-- The raw storage word observed at slot 8 in the source run. -/
def mainWord : Nat := 0x64ca691b00000000000000001d11899c51780000000003aa5712d4e77e453b6c

/-- A concrete account info for the pool, standing for the fetched
`basic()` result. -/
def mainAccInfo : AccountInfo :=
  { balance := 0, nonce := 1, code_hash := 3, code := some [0x60, 0x80] }

/-- The remote source of the recorded run: it serves the pool's account
info and the slot-8 word, and nothing else. -/
def mainRemote : RemoteStateSource where
  fetch_account := fun a => if a = poolAddress then some mainAccInfo else none
  fetch_storage := fun a s => if a = poolAddress ∧ s = slot8 then some mainWord else none

/-- The code assignment of the recorded run: the pair contract at the pool
address, nothing elsewhere. -/
def mainCode : Address → Option ContractCode := fun a =>
  if a = poolAddress then some getReservesCode else none

/-- A contract that always reverts, for exercising the revert path. -/
def revertingCode : Address → Option ContractCode := fun _ =>
  some (fun _ _ => (CallOutcome.rev [], []))

/-- A remote source whose fetches always fail. -/
def failingRemote : RemoteStateSource where
  fetch_account := fun _ => none
  fetch_storage := fun _ _ => none

/-- A remote source that agrees with `mainRemote` on the pool's account and
on slot 8 but answers differently everywhere else. -/
def altRemote : RemoteStateSource where
  fetch_account := fun _ => some mainAccInfo
  fetch_storage := fun a s => if a = poolAddress ∧ s = slot8 then some mainWord else some 7

/-- C1: injecting the raw word
0x64ca691b00000000000000001d11899c51780000000003aa5712d4e77e453b6c at the
pool's slot 8 and running the `getReserves()` call through the executor
decodes to exactly the bit slices of that word at ranges [0:112),
[112:224) and [224:256). -/
theorem packed_slot_decode :
    runPipeline mainRemote mainCode =
      Except.ok (mainWord % 2 ^ 112, mainWord / 2 ^ 112 % 2 ^ 112, mainWord / 2 ^ 224 % 2 ^ 32) ∧
    mainWord % 2 ^ 112 = 0x3aa5712d4e77e453b6c ∧
    mainWord / 2 ^ 112 % 2 ^ 112 = 0x1d11899c5178 ∧
    mainWord / 2 ^ 224 % 2 ^ 32 = 0x64ca691b :=
  ⟨rfl, rfl, rfl, rfl⟩

/-- C2: after `set_storage(addr, slot, v)` every subsequent
`get_storage(addr, slot)` returns exactly `v` without consulting the
remote, and the execution engine's storage read of that key also yields
`v`, regardless of any previously cached value. -/
theorem set_storage_precedence (db : CacheDB) (remote : RemoteStateSource)
    (a : Address) (s : StorageSlot) (v : Nat) (hv : v < 2 ^ 256) :
    getStorage (insertAccountStorage db a s v) remote a s =
      Except.ok (v, insertAccountStorage db a s v, false) ∧
    sload (insertAccountStorage db a s v) a s = v := by
  have hmod : v % 2 ^ 256 = v := Nat.mod_eq_of_lt hv
  constructor
  · simp [getStorage, insertAccountStorage, List.lookup, hmod]
    exact hv.trans_eq (by norm_num)
  · simp [sload, insertAccountStorage, List.lookup, hmod]
    exact hv.trans_eq (by norm_num)

/-- Witness for C2 at a concrete cache, key and value. -/
theorem set_storage_precedence_witness :
    (5 : Nat) < 2 ^ 256 ∧
    (getStorage (insertAccountStorage CacheDB.empty 1 2 5) mainRemote 1 2 =
       Except.ok (5, insertAccountStorage CacheDB.empty 1 2 5, false) ∧
     sload (insertAccountStorage CacheDB.empty 1 2 5) 1 2 = 5) :=
  ⟨by norm_num, set_storage_precedence CacheDB.empty mainRemote 1 2 5 (by norm_num)⟩

/-- C3: a cache miss is resolved by the remote source and nothing else:
on a miss, `get_account` (resp. `get_storage`) returns exactly the value
fetched from the remote, stores it in the cache, and reports a fetch; when
the remote fails, the miss surfaces `RemoteUnavailable`. -/
theorem cache_miss_fetches_remote (db : CacheDB) (remote : RemoteStateSource)
    (a : Address) (s : StorageSlot) :
    (db.accounts.lookup a = none → ∀ info, remote.fetch_account a = some info →
      getAccount db remote a = Except.ok (info, insertAccountInfo db a info, true)) ∧
    (db.accounts.lookup a = none → remote.fetch_account a = none →
      getAccount db remote a = Except.error SeedError.RemoteUnavailable) ∧
    (db.storage.lookup (a, s) = none → ∀ w, remote.fetch_storage a s = some w →
      getStorage db remote a s = Except.ok (w % 2 ^ 256, insertAccountStorage db a s w, true)) ∧
    (db.storage.lookup (a, s) = none → remote.fetch_storage a s = none →
      getStorage db remote a s = Except.error SeedError.RemoteUnavailable) := by
  refine ⟨?_, ?_, ?_, ?_⟩
  · intro hmiss info hfetch
    simp [getAccount, hmiss, hfetch]
  · intro hmiss hfetch
    simp [getAccount, hmiss, hfetch]
  · intro hmiss w hfetch
    simp [getStorage, hmiss, hfetch]
  · intro hmiss hfetch
    simp [getStorage, hmiss, hfetch]

/-- Witness for C3: a miss on the empty cache for the pool address is
served by the remote and materialized into the cache. -/
theorem cache_miss_fetches_remote_witness :
    CacheDB.empty.accounts.lookup poolAddress = none ∧
    mainRemote.fetch_account poolAddress = some mainAccInfo ∧
    getAccount CacheDB.empty mainRemote poolAddress =
      Except.ok (mainAccInfo, insertAccountInfo CacheDB.empty poolAddress mainAccInfo, true) :=
  ⟨rfl, rfl,
    (cache_miss_fetches_remote CacheDB.empty mainRemote poolAddress slot8).1 rfl mainAccInfo rfl⟩

/-- C9: fetching is idempotent: when `get_account` (resp. `get_storage`)
returns a value, calling it again on the resulting cache returns the same
value and the same cache with no further remote fetch, so two calls in
sequence trigger at most one fetch for the key. -/
theorem fetch_idempotent (db : CacheDB) (remote : RemoteStateSource) (a : Address)
    (s : StorageSlot) :
    (∀ info db1 f, getAccount db remote a = Except.ok (info, db1, f) →
      getAccount db1 remote a = Except.ok (info, db1, false)) ∧
    (∀ w db1 f, getStorage db remote a s = Except.ok (w, db1, f) →
      getStorage db1 remote a s = Except.ok (w, db1, false)) := by
  constructor
  · intro info db1 f h
    cases hc : db.accounts.lookup a with
    | some i =>
      simp [getAccount, hc] at h
      obtain ⟨h1, h2, h3⟩ := h
      subst h1; subst h2
      simp [getAccount, hc]
    | none =>
      cases hf : remote.fetch_account a with
      | some i =>
        simp [getAccount, hc, hf] at h
        obtain ⟨h1, h2, h3⟩ := h
        subst h1; subst h2
        simp [getAccount, insertAccountInfo, List.lookup]
      | none =>
        simp [getAccount, hc, hf] at h
  · intro w db1 f h
    cases hc : db.storage.lookup (a, s) with
    | some w0 =>
      simp [getStorage, hc] at h
      obtain ⟨h1, h2, h3⟩ := h
      subst h1; subst h2
      simp [getStorage, hc]
    | none =>
      cases hf : remote.fetch_storage a s with
      | some w0 =>
        simp [getStorage, hc, hf] at h
        obtain ⟨h1, h2, h3⟩ := h
        subst h1; subst h2
        simp [getStorage, insertAccountStorage, List.lookup]
      | none =>
        simp [getStorage, hc, hf] at h

/-- Witness for C9: the first read of the pool account fetches, the second
read on the updated cache is served from the cache. -/
theorem fetch_idempotent_witness :
    getAccount CacheDB.empty mainRemote poolAddress =
      Except.ok (mainAccInfo, insertAccountInfo CacheDB.empty poolAddress mainAccInfo, true) ∧
    getAccount (insertAccountInfo CacheDB.empty poolAddress mainAccInfo) mainRemote poolAddress =
      Except.ok (mainAccInfo, insertAccountInfo CacheDB.empty poolAddress mainAccInfo, false) :=
  ⟨rfl,
    (fetch_idempotent CacheDB.empty mainRemote poolAddress slot8).1 mainAccInfo
      (insertAccountInfo CacheDB.empty poolAddress mainAccInfo) true rfl⟩

/-- C4: under a Call-type transaction environment, a Success outcome always
carries the `Output.Call` variant with the raw return bytes, so the match
arm of the source mapping other output shapes to `none` is unreachable. -/
theorem call_success_is_call_output (db : CacheDB) (code : Address → Option ContractCode)
    (tx : TxEnv) (target : Address) (h : tx.transact_to = TransactTo.Call target) :
    ∀ out, (transact db code tx).1 = ExecutionResult.Success out →
      ∃ bytes, out = Output.Call bytes ∧
        extractCallOutput (transact db code tx).1 = some bytes := by
  intro out hout
  cases hc : code target with
  | none =>
    simp [transact, h, hc] at hout
    subst hout
    exact ⟨[], rfl, by simp [transact, h, hc, extractCallOutput]⟩
  | some c =>
    cases ho : (c (fun s => sload db target s) tx.data).1 with
    | ret ws =>
      simp [transact, h, hc, ho] at hout
      subst hout
      exact ⟨ws, rfl, by simp [transact, h, hc, ho, extractCallOutput]⟩
    | rev d =>
      simp [transact, h, hc, ho] at hout
    | halt r =>
      simp [transact, h, hc, ho] at hout

/-- Witness for C4: the recorded run is a Call-type transaction whose
Success outcome carries `Output.Call`, and the output extraction yields
those bytes. -/
theorem call_success_is_call_output_witness :
    mainTx.transact_to = TransactTo.Call poolAddress ∧
    (transact (seedCache mainAccInfo mainWord) mainCode mainTx).1 =
      ExecutionResult.Success (Output.Call
        (encodeReservesOutput (mainWord % 2 ^ 112) (mainWord / 2 ^ 112 % 2 ^ 112)
          (mainWord / 2 ^ 224 % 2 ^ 32))) ∧
    ∃ bytes,
      Output.Call
        (encodeReservesOutput (mainWord % 2 ^ 112) (mainWord / 2 ^ 112 % 2 ^ 112)
          (mainWord / 2 ^ 224 % 2 ^ 32)) = Output.Call bytes ∧
      extractCallOutput (transact (seedCache mainAccInfo mainWord) mainCode mainTx).1 =
        some bytes :=
  ⟨rfl, rfl,
    call_success_is_call_output (seedCache mainAccInfo mainWord) mainCode mainTx poolAddress rfl
      (Output.Call
        (encodeReservesOutput (mainWord % 2 ^ 112) (mainWord / 2 ^ 112 % 2 ^ 112)
          (mainWord / 2 ^ 224 % 2 ^ 32))) rfl⟩

/-- C5: when the executed call reverts or halts, the pipeline surfaces the
distinct unwrap failure before the decode stage and never returns a decoded
tuple, in particular never a silent zero tuple. -/
theorem revert_skips_decode (remote : RemoteStateSource) (code : Address → Option ContractCode)
    (info : AccountInfo) (w : Nat)
    (ha : remote.fetch_account poolAddress = some info)
    (hs : remote.fetch_storage poolAddress slot8 = some w)
    (hr : (∃ d, (transact (seedCache info w) code mainTx).1 = ExecutionResult.Revert d) ∨
          (∃ r, (transact (seedCache info w) code mainTx).1 = ExecutionResult.Halt r)) :
    runPipeline remote code = Except.error PipelineError.UnwrapNone ∧
    ∀ t, runPipeline remote code ≠ Except.ok t := by
  have hnone : extractCallOutput (transact (seedCache info w) code mainTx).1 = none := by
    rcases hr with ⟨d, hd⟩ | ⟨r, hrr⟩
    · rw [hd]; rfl
    · rw [hrr]; rfl
  constructor
  · simp [runPipeline, ha, hs, hnone]
  · intro t
    simp [runPipeline, ha, hs, hnone]

/-- Witness for C5: a reverting contract at the pool address makes the
pipeline fail with the unwrap error. -/
theorem revert_skips_decode_witness :
    mainRemote.fetch_account poolAddress = some mainAccInfo ∧
    (transact (seedCache mainAccInfo mainWord) revertingCode mainTx).1 =
      ExecutionResult.Revert [] ∧
    runPipeline mainRemote revertingCode = Except.error PipelineError.UnwrapNone :=
  ⟨rfl, rfl,
    (revert_skips_decode mainRemote revertingCode mainAccInfo mainWord rfl rfl
      (Or.inl ⟨[], rfl⟩)).1⟩

/-- C6: a seeding-stage remote failure (account fetch, or storage fetch)
aborts the run immediately with `RemoteUnavailable`: a failed account fetch
issues no further fetch, and the result is the same for every possible
contract semantics, so execution is never reached. -/
theorem seed_failure_aborts (remote : RemoteStateSource)
    (code : Address → Option ContractCode) :
    (remote.fetch_account poolAddress = none →
      runPipeline remote code = Except.error PipelineError.RemoteUnavailable ∧
      (runPipelineCount remote code).2 = 1 ∧
      ∀ c2, runPipeline remote c2 = Except.error PipelineError.RemoteUnavailable) ∧
    (remote.fetch_storage poolAddress slot8 = none →
      runPipeline remote code = Except.error PipelineError.RemoteUnavailable ∧
      ∀ c2, runPipeline remote c2 = Except.error PipelineError.RemoteUnavailable) := by
  constructor
  · intro ha
    exact ⟨by simp [runPipeline, ha], by simp [runPipelineCount, ha],
      fun c2 => by simp [runPipeline, ha]⟩
  · intro hs
    cases ha : remote.fetch_account poolAddress with
    | none =>
      exact ⟨by simp [runPipeline, ha], fun c2 => by simp [runPipeline, ha]⟩
    | some info =>
      exact ⟨by simp [runPipeline, ha, hs], fun c2 => by simp [runPipeline, ha, hs]⟩

/-- Witness for C6: the always-failing remote aborts the pipeline at the
first fetch. -/
theorem seed_failure_aborts_witness :
    failingRemote.fetch_account poolAddress = none ∧
    runPipeline failingRemote mainCode = Except.error PipelineError.RemoteUnavailable ∧
    (runPipelineCount failingRemote mainCode).2 = 1 :=
  ⟨rfl, ((seed_failure_aborts failingRemote mainCode).1 rfl).1,
    ((seed_failure_aborts failingRemote mainCode).1 rfl).2.1⟩

/-- C7: every remote consultation of the whole run happens during seeding:
the instrumented pipeline computes the same result as the pipeline and its
total remote-fetch count equals the count of the seeding stage alone, so
execution and decoding never consult the remote source. -/
theorem execution_consults_only_cache (remote : RemoteStateSource)
    (code : Address → Option ContractCode) :
    (runPipelineCount remote code).1 = runPipeline remote code ∧
    (runPipelineCount remote code).2 = seedFetches remote := by
  cases ha : remote.fetch_account poolAddress with
  | none =>
    simp [runPipelineCount, runPipeline, seedFetches, ha]
  | some info =>
    cases hs : remote.fetch_storage poolAddress slot8 with
    | none =>
      simp [runPipelineCount, runPipeline, seedFetches, ha, hs]
    | some w =>
      cases ho : extractCallOutput (transact (seedCache info w) code mainTx).1 with
      | none =>
        simp [runPipelineCount, runPipeline, seedFetches, ha, hs, ho]
      | some bytes =>
        cases hd : decodeGetReserves bytes with
        | none =>
          simp [runPipelineCount, runPipeline, seedFetches, ha, hs, ho, hd]
        | some t =>
          simp [runPipelineCount, runPipeline, seedFetches, ha, hs, ho, hd]

/-- C8: executing the call leaves the state view untouched: `transact`
returns the cache unchanged, and in particular the seeded pool account and
slot-8 entries are still present unmodified afterwards. -/
theorem transact_no_side_effects (db : CacheDB) (code : Address → Option ContractCode)
    (tx : TxEnv) (info : AccountInfo) (w : Nat) :
    (transact db code tx).2 = db ∧
    (transact (seedCache info w) code mainTx).2.accounts.lookup poolAddress = some info ∧
    (transact (seedCache info w) code mainTx).2.storage.lookup (poolAddress, slot8) =
      some (w % 2 ^ 256) := by
  have hdb : ∀ (db2 : CacheDB) (tx2 : TxEnv), (transact db2 code tx2).2 = db2 := by
    intro db2 tx2
    cases htt : tx2.transact_to with
    | Call target =>
      cases hc : code target with
      | none => simp [transact, htt, hc]
      | some c =>
        cases ho : (c (fun s => sload db2 target s) tx2.data).1 <;>
          simp [transact, htt, hc, ho]
    | Create => simp [transact, htt]
  refine ⟨hdb db tx, ?_, ?_⟩
  · rw [hdb]
    simp [seedCache, insertAccountStorage, insertAccountInfo, List.lookup]
  · rw [hdb]
    simp [seedCache, insertAccountStorage, insertAccountInfo, List.lookup]

/-- C10: the pipeline is deterministic in the seeded data: two remote
sources that agree on the pool's account info and on the slot-8 word give
identical execution outcomes and identical decoded tuples under the same
contract semantics. -/
theorem pipeline_deterministic (r1 r2 : RemoteStateSource)
    (code : Address → Option ContractCode)
    (ha : r1.fetch_account poolAddress = r2.fetch_account poolAddress)
    (hs : r1.fetch_storage poolAddress slot8 = r2.fetch_storage poolAddress slot8) :
    runPipeline r1 code = runPipeline r2 code ∧
    pipelineOutcome r1 code = pipelineOutcome r2 code := by
  refine ⟨?_, ?_⟩ <;> simp only [runPipeline, pipelineOutcome, ha, hs]

/-- Witness for C10: `mainRemote` and `altRemote` differ away from the pool
keys yet agree on them, and the pipeline results coincide. -/
theorem pipeline_deterministic_witness :
    mainRemote.fetch_account poolAddress = altRemote.fetch_account poolAddress ∧
    (runPipeline mainRemote mainCode = runPipeline altRemote mainCode ∧
     pipelineOutcome mainRemote mainCode = pipelineOutcome altRemote mainCode) :=
  ⟨rfl, pipeline_deterministic mainRemote altRemote mainCode rfl rfl⟩

end RevmEx
